import Mathlib

/-!
Shallow embedding of the PartSelect agent orchestration pipeline.

The definitions below are translated from the repository sources:
- src/mcp_servers/mysql/mysql_server.py (read-only query filter, LIMIT rewrite,
  the execute_read_query tool handler),
- src/lily_client/client.py (the MCPClient orchestrator: execute_tool,
  execute_batch_tools, retrieve_information, the generate/validate loop inside
  process_query, reset_chat, regenerate_response, conversation history).

LLM calls and backend sessions are modelled as oracle functions passed in as
parameters; everything else follows the Python control flow statement by
statement.  Machine strings are Lean String; Python dicts whose values are
strings are association lists.
-/

namespace PartSelect

/-- Single-quote character, built numerically so that string renderings of
Python dict literals can mention it. -/
def sq : String := String.singleton (Char.ofNat 39)

/-- Whitespace characters recognised by Python str.split and str.strip. -/
def isPySpace (c : Char) : Bool :=
  c = ' ' || c = '\t' || c = '\n' || c = '\r' || c = '\x0b' || c = '\x0c'

/-- Python str.strip with no arguments: remove leading and trailing whitespace. -/
def pyStrip (s : String) : String :=
  String.mk (((s.toList.dropWhile isPySpace).reverse.dropWhile isPySpace).reverse)

/-- Helper for pySplitWhitespace: walk the characters, accumulating the current
token in reverse; whitespace runs separate tokens and empty tokens are dropped,
exactly as Python str.split with no arguments behaves. -/
def splitWsAux : List Char → List Char → List String
  | [], cur => if cur.isEmpty then [] else [String.mk cur.reverse]
  | c :: cs, cur =>
    if isPySpace c then
      if cur.isEmpty then splitWsAux cs []
      else String.mk cur.reverse :: splitWsAux cs []
    else splitWsAux cs (c :: cur)

/-- Python str.split with no arguments: split on whitespace runs, no empties. -/
def pySplitWhitespace (s : String) : List String := splitWsAux s.toList []

/-- Python str.upper restricted to ASCII letters, which is all the source
compares (SQL keywords). -/
def pyUpper (s : String) : String := String.mk (s.toList.map Char.toUpper)

/-- Character-list prefix test. -/
def isPrefixList : List Char → List Char → Bool
  | [], _ => true
  | _ :: _, [] => false
  | c :: cs, d :: ds => c == d && isPrefixList cs ds

/-- Python str.startswith. -/
def pyStartsWith (s pre : String) : Bool := isPrefixList pre.toList s.toList

/-- Character-list substring test. -/
def containsSub : List Char → List Char → Bool
  | [], needle => needle.isEmpty
  | c :: cs, needle => isPrefixList needle (c :: cs) || containsSub cs needle

/-- Python substring test (sub in s). -/
def pyContains (s sub : String) : Bool := containsSub s.toList sub.toList

/-- Python str.split at a semicolon separator, keeping empty pieces, as the
server uses on statements containing semicolons. -/
def splitOnSemi : List Char → List Char → List String
  | [], cur => [String.mk cur.reverse]
  | c :: cs, cur => if c == ';' then String.mk cur.reverse :: splitOnSemi cs []
      else splitOnSemi cs (c :: cur)

/-- Python query.split at semicolons. -/
def pySplitSemicolon (s : String) : List String := splitOnSemi s.toList []

/-- Python sep.join over a list of strings. -/
def joinSep (sep : String) : List String → String
  | [] => ""
  | [x] => x
  | x :: xs => x ++ sep ++ joinSep sep xs

/-- mysql_server.py: list of allowed read-only statement keywords. -/
def ALLOWED_QUERY_TYPES : List String := ["SELECT", "SHOW", "DESCRIBE", "DESC", "EXPLAIN"]

/-- mysql_server.py is_read_only_query: first whitespace token of the stripped
query, uppercased, must be an allowed keyword.  Python raises IndexError on a
whitespace-only string (split yields no token); that path is none. -/
def is_read_only_query (query : String) : Option Bool :=
  match pySplitWhitespace (pyStrip query) with
  | [] => none
  | t :: _ => some (ALLOWED_QUERY_TYPES.contains (pyUpper t))

/-- mysql_server.py execute_read_query result record. -/
structure SQLQueryResult where
  columns : Option (List String)
  rows : Option (List (List String))
  message : Option String
  error : Option String
  deriving DecidableEq

/-- mysql_server.py lines 94-104: before executing, a SELECT statement with no
LIMIT substring gets a LIMIT 10 clause, inserted before the first semicolon
when one is present, appended otherwise. -/
def serverRewriteLimit (query : String) : String :=
  if pyStartsWith (pyUpper (pyStrip query)) "SELECT" && !(pyContains (pyUpper query) "LIMIT") then
    if pyContains query ";" then
      match pySplitSemicolon query with
      | [] => query
      | p :: ps => joinSep ";" ((p ++ " LIMIT 10") :: ps)
    else query ++ " LIMIT 10"
  else query

/-- mysql_server.py error text for a rejected non-read statement. -/
def readOnlyErrorMsg : String :=
  "Only read-only queries are allowed. Allowed commands: " ++
    joinSep ", " ALLOWED_QUERY_TYPES

/-- mysql_server.py execute_read_query.  The database interaction (connect,
cursor.execute, fetch and result formatting, including the except-Error branch
that returns an error record) is the oracle db, applied to the statement after
the LIMIT rewrite.  The none result is the IndexError Python raises on a
whitespace-only query inside is_read_only_query, before the try block. -/
def execute_read_query (db : String → SQLQueryResult) (query : String) : Option SQLQueryResult :=
  match is_read_only_query query with
  | none => none
  | some false => some ⟨none, none, none, some readOnlyErrorMsg⟩
  | some true => some (db (serverRewriteLimit query))

/-- models.py ToolCall. -/
structure ToolCall where
  tool_name : String
  table_name : String
  query : String
  deriving DecidableEq

/-- models.py BatchToolCall. -/
structure BatchToolCall where
  tool_calls : List ToolCall
  should_continue : Bool
  deriving DecidableEq

/-- models.py ToolResult; tool_args is a Python dict with string values. -/
structure ToolResult where
  tool_name : String
  tool_args : List (String × String)
  result : String
  deriving DecidableEq

/-- models.py QueryAnalysis. -/
structure QueryAnalysis where
  is_in_scope : Bool
  needs_retrieval : Bool
  deriving DecidableEq

/-- models.py ResponseValidation. -/
structure ResponseValidation where
  is_appropriate : Bool
  stays_in_scope : Bool
  hallucination : Bool
  feedback : Option String
  deriving DecidableEq

/-- Outcome of one backend session call_tool invocation as observed by
execute_tool: a text payload, an asyncio.TimeoutError, or any other exception
(transport fault, missing session, malformed content), whose message is
carried so the except-branch can format it. -/
inductive BackendOutcome where
  | success (text : String)
  | timeout
  | fault (msg : String)
  deriving DecidableEq

/-- client.py lines 262-264: before dispatching execute_read_query, a SELECT
statement with no LIMIT substring gets a LIMIT 10 clause appended. -/
def clientRewriteLimit (query : String) : String :=
  if pyStartsWith (pyUpper (pyStrip query)) "SELECT" && !(pyContains (pyUpper query) "LIMIT") then
    query ++ " LIMIT 10"
  else query

/-- client.py execute_tool.  The rag and mysql oracles stand for the two
backend sessions; every outcome is folded into a ToolResult, never raised.
On a fault the outer except handler rebuilds tool_args from the original
table and query fields. -/
def execute_tool (rag : String → String → BackendOutcome) (mysql : String → BackendOutcome)
    (tc : ToolCall) : ToolResult :=
  if tc.tool_name == "searchRAG" then
    match rag tc.table_name tc.query with
    | .success t => ⟨"searchRAG", [("table", tc.table_name), ("query", tc.query)], t⟩
    | .timeout => ⟨"searchRAG", [("table", tc.table_name), ("query", tc.query)],
        "Timeout searching " ++ tc.table_name ++ ". The search took too long to complete."⟩
    | .fault m => ⟨tc.tool_name, [("table", tc.table_name), ("query", tc.query)],
        "Error executing tool " ++ tc.tool_name ++ ": " ++ m⟩
  else if tc.tool_name == "execute_read_query" then
    match mysql (clientRewriteLimit tc.query) with
    | .success t => ⟨"execute_read_query", [("query", clientRewriteLimit tc.query)], t⟩
    | .timeout => ⟨"execute_read_query", [("query", clientRewriteLimit tc.query)],
        "Timeout executing query. The database operation took too long to complete."⟩
    | .fault m => ⟨tc.tool_name, [("table", tc.table_name), ("query", tc.query)],
        "Error executing tool " ++ tc.tool_name ++ ": " ++ m⟩
  else
    ⟨tc.tool_name, [("table", tc.table_name), ("query", tc.query)],
      "Unknown tool: " ++ tc.tool_name⟩

/-- client.py execute_batch_tools: asyncio.gather over execute_tool tasks,
results returned in input order. -/
def execute_batch_tools (rag : String → String → BackendOutcome)
    (mysql : String → BackendOutcome) (b : BatchToolCall) : List ToolResult :=
  b.tool_calls.map (execute_tool rag mysql)

/-- client.py retrieve_information loop body.  The planner stream holds the
successive decide_batch_tools responses (none models a parse result without
tool calls being falsy at the first loop test).  Each iteration consumes one
response: stop on an absent or empty batch, stop when three batches have
already run, otherwise execute the batch, extend the accumulator, and stop
unless should_continue.  Returns the accumulated results and the batch count. -/
def retrieveGo (rag : String → String → BackendOutcome) (mysql : String → BackendOutcome) :
    List (Option BatchToolCall) → List ToolResult → Nat → List ToolResult × Nat
  | [], acc, bc => (acc, bc)
  | none :: _, acc, bc => (acc, bc)
  | some b :: ps, acc, bc =>
    if b.tool_calls.isEmpty then (acc, bc)
    else if 3 ≤ bc then (acc, bc)
    else if b.should_continue then
      retrieveGo rag mysql ps (acc ++ execute_batch_tools rag mysql b) (bc + 1)
    else (acc ++ execute_batch_tools rag mysql b, bc + 1)

/-- client.py retrieve_information: run the loop from an empty accumulator and
batch count zero, returning all accumulated tool results. -/
def retrieve_information (rag : String → String → BackendOutcome)
    (mysql : String → BackendOutcome) (planners : List (Option BatchToolCall)) :
    List ToolResult :=
  (retrieveGo rag mysql planners [] 0).1

/-- Number of tool calls carried by one planner response. -/
def batchSize : Option BatchToolCall → Nat
  | none => 0
  | some b => b.tool_calls.length

/-- Conversation history entry: role and content. -/
structure Message where
  role : String
  content : String
  deriving DecidableEq

/-- Python dict literal rendering for a string-valued dict, as str produces. -/
def pyDictStr (args : List (String × String)) : String :=
  "\x7b" ++ joinSep ", "
    (args.map fun p => sq ++ p.1 ++ sq ++ ": " ++ sq ++ p.2 ++ sq) ++ "\x7d"

/-- Rendering of ToolResult.model_dump() under str, as generate_response
serialises ordinary tool results. -/
def toolResultDump (r : ToolResult) : String :=
  "\x7b" ++ sq ++ "tool_name" ++ sq ++ ": " ++ sq ++ r.tool_name ++ sq ++ ", " ++
    sq ++ "tool_args" ++ sq ++ ": " ++ pyDictStr r.tool_args ++ ", " ++
    sq ++ "result" ++ sq ++ ": " ++ sq ++ r.result ++ sq ++ "\x7d"

/-- Dict lookup; the none fallback is the KeyError Python would raise, never
reached on the validation_feedback records the loop constructs. -/
def lookupArg (k : String) (args : List (String × String)) : String :=
  match args.find? (fun p => p.1 == k) with
  | some p => p.2
  | none => ""

/-- client.py generate_response context assembly: a validation_feedback record
contributes the previous response and its feedback, any other result its
model_dump rendering. -/
def resultContextParts (r : ToolResult) : List String :=
  if r.tool_name == "validation_feedback" then
    ["Previous response: " ++ lookupArg "response" r.tool_args,
     "Previous response feedback: " ++ r.result]
  else [toolResultDump r]

/-- client.py generate_response: join the context parts, or the fixed phrase
when there are none. -/
def serializeContext (trs : List ToolResult) : String :=
  match trs.flatMap resultContextParts with
  | [] => "No data retrieved"
  | parts => joinSep "\n" parts

/-- Python truthiness of the validation pass condition: all three booleans
favourable. -/
def validationPasses (v : ResponseValidation) : Bool :=
  v.is_appropriate && v.stays_in_scope && !v.hallucination

/-- Result of the generate-validate loop: the last generated response, the
tool-result list after feedback injection, the history after the Context
appends, and how many generation attempts ran. -/
structure GVOut where
  response : String
  toolResults : List ToolResult
  history : List Message
  genCount : Nat
  deriving DecidableEq

/-- client.py process_query step 3, the generate-validate loop.  gen models
generate_response (its Nat argument is the attempt index, carrying the
nondeterminism of successive LLM calls) and val models validate_response
likewise.  Each iteration appends the Context message exactly as
generate_response does, then validates; on pass it stops, on a failure whose
feedback is None or empty (Python truthiness) it stops, otherwise it appends
the validation_feedback pseudo tool result and retries.  fuel is
max_attempts - attempt; the initial response argument is dead for positive
fuel, mirroring the Python variable being unbound before the first
iteration. -/
def gvGo (gen : Nat → List ToolResult → String) (val : Nat → String → ResponseValidation) :
    Nat → Nat → String → List ToolResult → List Message → Nat → GVOut
  | 0, _, resp, trs, hist, g => ⟨resp, trs, hist, g⟩
  | fuel + 1, attempt, _, trs, hist, g =>
    if validationPasses (val attempt (gen attempt trs)) then
      ⟨gen attempt trs, trs,
        hist ++ [⟨"user", "Context: " ++ serializeContext trs⟩], g + 1⟩
    else
      match (val attempt (gen attempt trs)).feedback with
      | some fb =>
        if fb == "" then
          ⟨gen attempt trs, trs,
            hist ++ [⟨"user", "Context: " ++ serializeContext trs⟩], g + 1⟩
        else
          gvGo gen val fuel (attempt + 1) (gen attempt trs)
            (trs ++ [⟨"validation_feedback",
              [("response", gen attempt trs), ("feedback", fb)], fb⟩])
            (hist ++ [⟨"user", "Context: " ++ serializeContext trs⟩]) (g + 1)
      | none =>
        ⟨gen attempt trs, trs,
          hist ++ [⟨"user", "Context: " ++ serializeContext trs⟩], g + 1⟩

/-- client.py get_introduction_message, the fixed introduction text. -/
def get_introduction_message : String :=
  String.singleton (Char.ofNat 0x1F44B) ++
  " Welcome to PartSelect! I" ++ sq ++ "m your appliance parts assistant, specializing in Refrigerator and Dishwasher parts.\nI can help you:\n- Find the right parts based on symptoms or part descriptions\n- Provide details on pricing, installation difficulty, and compatibility\n- Guide you to our compatibility checker where you can verify if parts work with your model\n- Share installation videos and repair guidance\n- Assist with brand-specific replacement parts\n\nWhat refrigerator or dishwasher part information can I help you with today?"

/-- The introduction message as stored in the conversation history. -/
def introMessage : Message := ⟨"assistant", get_introduction_message⟩

/-- client.py MCPClient.__init__: the history starts as the introduction
message alone. -/
def initHistory : List Message := [introMessage]

/-- client.py reset_chat: replace the history with the introduction message
and return the introduction text; the prior history is discarded. -/
def reset_chat (_hist : List Message) : String × List Message :=
  (get_introduction_message, [⟨"assistant", get_introduction_message⟩])

/-- client.py process_query apology text for out-of-scope queries. -/
def apologyText : String :=
  "I apologize, but I can only assist with questions about refrigerator or dishwasher appliance parts and repairs. Could you please rephrase your question?"

/-- client.py process_query: append the user query, gate on the scope
analysis, retrieve when needed, then run the generate-validate loop with
max_attempts 3 and append the final answer.  analysis stands for the
analyze_query LLM call on this turn. -/
def process_query (analysis : QueryAnalysis) (rag : String → String → BackendOutcome)
    (mysql : String → BackendOutcome) (planners : List (Option BatchToolCall))
    (gen : Nat → List ToolResult → String) (val : Nat → String → ResponseValidation)
    (hist : List Message) (query : String) : String × List Message :=
  let hist1 := hist ++ [Message.mk "user" query]
  if analysis.is_in_scope then
    let r := gvGo gen val 3 0 ""
      (if analysis.needs_retrieval then retrieve_information rag mysql planners else [])
      hist1 0
    (r.response, r.history ++ [Message.mk "assistant" r.response])
  else
    (apologyText, hist1 ++ [Message.mk "assistant" apologyText])

/-- client.py regenerate_response match test: a user message, not a synthetic
Context message, whose content equals the query. -/
def histMatch (q : String) (m : Message) : Bool :=
  m.role == "user" && !(pyStartsWith m.content "Context:") && m.content == q

/-- Whether the history entry at index k satisfies the regenerate match. -/
def matchIdx (hist : List Message) (q : String) (k : Nat) : Bool :=
  match hist.get? k with
  | some m => histMatch q m
  | none => false

/-- client.py regenerate_response scan, index descending from i: at a matching
index keep the strict prefix before it; at index 0 without a match keep only
the first message. -/
def truncScan (hist : List Message) (q : String) : Nat → List Message
  | 0 => if matchIdx hist q 0 then hist.take 0 else hist.take 1
  | i + 1 => if matchIdx hist q (i + 1) then hist.take (i + 1) else truncScan hist q i

/-- client.py regenerate_response truncation step: only histories with at
least two messages are scanned; shorter ones are left untouched. -/
def truncateHistory (hist : List Message) (q : String) : List Message :=
  if 2 ≤ hist.length then truncScan hist q (hist.length - 1) else hist

/-- client.py regenerate_response: truncate, then process the query again. -/
def regenerate_response (analysis : QueryAnalysis) (rag : String → String → BackendOutcome)
    (mysql : String → BackendOutcome) (planners : List (Option BatchToolCall))
    (gen : Nat → List ToolResult → String) (val : Nat → String → ResponseValidation)
    (hist : List Message) (query : String) : String × List Message :=
  process_query analysis rag mysql planners gen val (truncateHistory hist query) query

/-- Conversation history invariant: non-empty and headed by the introduction
message. -/
def histInv (h : List Message) : Prop := h ≠ [] ∧ h.head? = some introMessage

/-- Concrete generation oracle used to instantiate theorems. -/
def cGen : Nat → List ToolResult → String := fun _ _ => "answer"

/-- Concrete validator oracle that always passes. -/
def cValPass : Nat → String → ResponseValidation := fun _ _ => ⟨true, true, false, none⟩

/-- Concrete validator oracle that fails without feedback. -/
def cValNoFb : Nat → String → ResponseValidation := fun _ _ => ⟨false, true, false, none⟩

/-- Concrete semantic-search session oracle. -/
def cRag : String → String → BackendOutcome := fun _ _ => .success "ok"

/-- Concrete structured-query session oracle. -/
def cMysql : String → BackendOutcome := fun _ => .success "ok"

/-- The retrieval loop never raises its batch counter above three. -/
theorem retrieveGo_snd_le (rag : String → String → BackendOutcome)
    (mysql : String → BackendOutcome) :
    ∀ (ps : List (Option BatchToolCall)) (acc : List ToolResult) (bc : Nat),
      bc ≤ 3 → (retrieveGo rag mysql ps acc bc).2 ≤ 3 := by
  intro ps
  induction ps with
  | nil => intro acc bc h; simpa [retrieveGo] using h
  | cons ob ps ih =>
    intro acc bc h
    match ob with
    | none => simpa [retrieveGo] using h
    | some b =>
      simp only [retrieveGo]
      split
      · exact h
      · split
        · exact h
        · split
          · exact ih _ _ (by omega)
          · show bc + 1 ≤ 3
            omega

/-- Result-count bound for the retrieval loop: when every planner batch holds
at most three tool calls, each executed batch adds at most three results. -/
theorem retrieveGo_fst_len (rag : String → String → BackendOutcome)
    (mysql : String → BackendOutcome) :
    ∀ (ps : List (Option BatchToolCall)) (acc : List ToolResult) (bc : Nat),
      (∀ ob ∈ ps, batchSize ob ≤ 3) → bc ≤ 3 →
      (retrieveGo rag mysql ps acc bc).1.length ≤ acc.length + (3 - bc) * 3 := by
  intro ps
  induction ps with
  | nil => intro acc bc _ _; simp [retrieveGo]
  | cons ob ps ih =>
    intro acc bc hb hbc
    match ob with
    | none => simp [retrieveGo]
    | some b =>
      have hsz : b.tool_calls.length ≤ 3 := hb (some b) (by simp)
      have hlen : (acc ++ execute_batch_tools rag mysql b).length
          = acc.length + b.tool_calls.length := by
        simp [execute_batch_tools]
      simp only [retrieveGo]
      split
      · simp
      · split
        · simp
        · split
          · have := ih (acc ++ execute_batch_tools rag mysql b) (bc + 1)
              (fun ob h => hb ob (by simp [h])) (by omega)
            omega
          · show (acc ++ execute_batch_tools rag mysql b).length ≤ acc.length + (3 - bc) * 3
            omega

/-- The generate-validate loop runs at most fuel generation attempts. -/
theorem gvGo_genCount_le (gen : Nat → List ToolResult → String)
    (val : Nat → String → ResponseValidation) :
    ∀ (fuel attempt : Nat) (resp : String) (trs : List ToolResult)
      (hist : List Message) (g : Nat),
      (gvGo gen val fuel attempt resp trs hist g).genCount ≤ g + fuel := by
  intro fuel
  induction fuel with
  | zero => intro attempt resp trs hist g; simp [gvGo]
  | succ f ih =>
    intro attempt resp trs hist g
    simp only [gvGo]
    split
    · simp
    · rcases hfb : (val attempt (gen attempt trs)).feedback with _ | fb
      · simp
      · simp only []
        split
        · simp
        · have h2 := ih (attempt + 1) (gen attempt trs)
            (trs ++ [⟨"validation_feedback",
              [("response", gen attempt trs), ("feedback", fb)], fb⟩])
            (hist ++ [⟨"user", "Context: " ++ serializeContext trs⟩]) (g + 1)
          omega

/-- The generate-validate loop only ever appends to the history it is given. -/
theorem gvGo_history_append (gen : Nat → List ToolResult → String)
    (val : Nat → String → ResponseValidation) :
    ∀ (fuel attempt : Nat) (resp : String) (trs : List ToolResult)
      (hist : List Message) (g : Nat),
      ∃ t, (gvGo gen val fuel attempt resp trs hist g).history = hist ++ t := by
  intro fuel
  induction fuel with
  | zero => intro attempt resp trs hist g; exact ⟨[], by simp [gvGo]⟩
  | succ f ih =>
    intro attempt resp trs hist g
    simp only [gvGo]
    split
    · exact ⟨[⟨"user", "Context: " ++ serializeContext trs⟩], rfl⟩
    · rcases hfb : (val attempt (gen attempt trs)).feedback with _ | fb
      · exact ⟨[⟨"user", "Context: " ++ serializeContext trs⟩], rfl⟩
      · simp only []
        split
        · exact ⟨[⟨"user", "Context: " ++ serializeContext trs⟩], rfl⟩
        · obtain ⟨t, ht⟩ := ih (attempt + 1) (gen attempt trs)
            (trs ++ [⟨"validation_feedback",
              [("response", gen attempt trs), ("feedback", fb)], fb⟩])
            (hist ++ [⟨"user", "Context: " ++ serializeContext trs⟩]) (g + 1)
          exact ⟨[⟨"user", "Context: " ++ serializeContext trs⟩] ++ t,
            by rw [ht, List.append_assoc]⟩

/-- Characterisation of the regenerate scan: either it found the highest
matching index at or below i and kept the strict prefix before it, or there is
no match at or below i and it kept only the first message. -/
theorem truncScan_spec (hist : List Message) (q : String) :
    ∀ i : Nat,
      (∃ j, j ≤ i ∧ matchIdx hist q j = true ∧
        (∀ k, j < k → k ≤ i → matchIdx hist q k = false) ∧
        truncScan hist q i = hist.take j) ∨
      ((∀ k, k ≤ i → matchIdx hist q k = false) ∧ truncScan hist q i = hist.take 1) := by
  intro i
  induction i with
  | zero =>
    cases h : matchIdx hist q 0 with
    | true =>
      exact Or.inl ⟨0, le_refl 0, h, fun k hk1 hk2 => absurd (by omega : (0:Nat) < 0)
        (by omega), by simp [truncScan, h]⟩
    | false =>
      refine Or.inr ⟨fun k hk => ?_, by simp [truncScan, h]⟩
      have : k = 0 := by omega
      simpa [this] using h
  | succ i ih =>
    cases h : matchIdx hist q (i + 1) with
    | true =>
      refine Or.inl ⟨i + 1, le_refl _, h, fun k hk1 hk2 => ?_, by simp [truncScan, h]⟩
      omega
    | false =>
      rcases ih with ⟨j, hj, hm, hnone, heq⟩ | ⟨hnone, heq⟩
      · refine Or.inl ⟨j, by omega, hm, fun k hk1 hk2 => ?_, by simp [truncScan, h, heq]⟩
        rcases Nat.lt_or_ge k (i + 1) with hk | hk
        · exact hnone k hk1 (by omega)
        · have : k = i + 1 := by omega
          simpa [this] using h
      · refine Or.inr ⟨fun k hk => ?_, by simp [truncScan, h, heq]⟩
        rcases Nat.lt_or_ge k (i + 1) with hk | hk
        · exact hnone k (by omega)
        · have : k = i + 1 := by omega
          simpa [this] using h

/-- The whitespace splitter yields at least one token when the input holds a
non-whitespace character or a token is already being accumulated. -/
theorem splitWsAux_ne_nil :
    ∀ (l cur : List Char),
      ((l.any fun c => !isPySpace c) = true ∨ cur ≠ []) → splitWsAux l cur ≠ [] := by
  intro l
  induction l with
  | nil =>
    intro cur h
    rcases h with h | h
    · simp at h
    · simp [splitWsAux, List.isEmpty_iff, h]
  | cons c cs ih =>
    intro cur h
    cases hsp : isPySpace c with
    | true =>
      simp only [splitWsAux, hsp, if_true]
      cases hcur : cur.isEmpty with
      | true =>
        refine ih [] (Or.inl ?_)
        rcases h with h | h
        · simpa [hsp] using h
        · rw [List.isEmpty_iff] at hcur
          exact absurd hcur h
      | false => simp
    | false =>
      simp only [splitWsAux, hsp, if_false]
      exact ih (c :: cur) (Or.inr (by simp))

/-- Dropping a whitespace prefix preserves the presence of a non-whitespace
character. -/
theorem dropWhile_any_nonspace :
    ∀ l : List Char, (l.any fun c => !isPySpace c) = true →
      ((l.dropWhile isPySpace).any fun c => !isPySpace c) = true := by
  intro l
  induction l with
  | nil => intro h; simp at h
  | cons c cs ih =>
    intro h
    cases hsp : isPySpace c with
    | true =>
      rw [List.dropWhile_cons_of_pos (by simp [hsp])]
      exact ih (by simpa [hsp] using h)
    | false =>
      rw [List.dropWhile_cons_of_neg (by simp [hsp])]
      exact h

/-- Stripping preserves the presence of a non-whitespace character. -/
theorem pyStrip_any_nonspace (s : String) :
    (s.toList.any fun c => !isPySpace c) = true →
    ((pyStrip s).toList.any fun c => !isPySpace c) = true := by
  intro h
  have h1 := dropWhile_any_nonspace s.toList h
  have h2 : ((s.toList.dropWhile isPySpace).reverse.any fun c => !isPySpace c) = true := by
    simpa [List.any_eq_true] using h1
  have h3 := dropWhile_any_nonspace _ h2
  have h4 : ((((s.toList.dropWhile isPySpace).reverse.dropWhile isPySpace).reverse).any
      fun c => !isPySpace c) = true := by
    simpa [List.any_eq_true] using h3
  simpa [pyStrip] using h4

/-- C3: a structured_query statement whose first token is not a read form is
rejected inside execute_read_query before any database dispatch: the result is
the fixed descriptive error record and the database oracle is never consulted
(the outcome is identical for every oracle), so the statement is never
forwarded to the backend store. -/
theorem c3_thm (db : String → SQLQueryResult) (q : String)
    (h : is_read_only_query q = some false) :
    execute_read_query db q = some ⟨none, none, none, some readOnlyErrorMsg⟩ ∧
    ∀ db2 : String → SQLQueryResult, execute_read_query db2 q = execute_read_query db q := by
  constructor
  · simp [execute_read_query, h]
  · intro db2
    simp [execute_read_query, h]

/-- Witness for c3_thm at the concrete non-read statement DROP TABLE parts. -/
theorem c3_witness :
    is_read_only_query "DROP TABLE parts" = some false ∧
    execute_read_query (fun _ => ⟨none, none, none, none⟩) "DROP TABLE parts"
      = some ⟨none, none, none, some readOnlyErrorMsg⟩ :=
  ⟨by decide, (c3_thm (fun _ => ⟨none, none, none, none⟩) "DROP TABLE parts" (by decide)).1⟩

/-- C5: a structured_query statement that is a SELECT read with no LIMIT
substring is rewritten before dispatch by appending the clause LIMIT 10, both
by the client gateway and (absent semicolons) by the server handler; a
statement already containing LIMIT is dispatched unmodified by both. -/
theorem c5_thm (q : String) :
    (pyStartsWith (pyUpper (pyStrip q)) "SELECT" = true →
      pyContains (pyUpper q) "LIMIT" = false →
      clientRewriteLimit q = q ++ " LIMIT 10") ∧
    (pyContains (pyUpper q) "LIMIT" = true →
      clientRewriteLimit q = q ∧ serverRewriteLimit q = q) ∧
    (pyStartsWith (pyUpper (pyStrip q)) "SELECT" = true →
      pyContains (pyUpper q) "LIMIT" = false → pyContains q ";" = false →
      serverRewriteLimit q = q ++ " LIMIT 10") := by
  refine ⟨fun h1 h2 => ?_, fun h => ⟨?_, ?_⟩, fun h1 h2 h3 => ?_⟩
  · simp [clientRewriteLimit, h1, h2]
  · simp [clientRewriteLimit, h]
  · simp [serverRewriteLimit, h]
  · simp [serverRewriteLimit, h1, h2, h3]

/-- Witness for c5_thm at concrete statements with and without a LIMIT. -/
theorem c5_witness :
    clientRewriteLimit "SELECT part_name FROM parts"
      = "SELECT part_name FROM parts" ++ " LIMIT 10" ∧
    clientRewriteLimit "SELECT part_id FROM parts LIMIT 5"
      = "SELECT part_id FROM parts LIMIT 5" ∧
    serverRewriteLimit "SELECT part_name FROM parts"
      = "SELECT part_name FROM parts" ++ " LIMIT 10" :=
  ⟨(c5_thm "SELECT part_name FROM parts").1 (by decide) (by decide),
   ((c5_thm "SELECT part_id FROM parts LIMIT 5").2.1 (by decide)).1,
   (c5_thm "SELECT part_name FROM parts").2.2 (by decide) (by decide) (by decide)⟩

/-- C9: reset_chat replaces any prior history by the single introduction
message, returns the introduction text, and is idempotent: a second reset
yields the same returned text and the same history. -/
theorem c9_thm (h : List Message) :
    reset_chat h = (get_introduction_message, [⟨"assistant", get_introduction_message⟩]) ∧
    reset_chat (reset_chat h).2 = reset_chat h ∧
    (reset_chat h).2.length = 1 :=
  ⟨rfl, rfl, rfl⟩

/-- C10: on a query with at least one non-whitespace character,
is_read_only_query answers true exactly when the first whitespace-delimited
token, uppercased, is one of the allowed keywords; in particular the
multi-statement string SELECT 1; DROP TABLE parts passes the filter. -/
theorem c10_thm (q : String)
    (h : (q.toList.any fun c => !isPySpace c) = true) :
    (∃ t ts, pySplitWhitespace (pyStrip q) = t :: ts ∧
      (is_read_only_query q = some true ↔
        ALLOWED_QUERY_TYPES.contains (pyUpper t) = true)) ∧
    is_read_only_query "SELECT 1; DROP TABLE parts" = some true := by
  constructor
  · have hne : pySplitWhitespace (pyStrip q) ≠ [] :=
      splitWsAux_ne_nil (pyStrip q).toList [] (Or.inl (pyStrip_any_nonspace q h))
    rcases hsp : pySplitWhitespace (pyStrip q) with _ | ⟨t, ts⟩
    · exact absurd hsp hne
    · refine ⟨t, ts, rfl, ?_⟩
      simp [is_read_only_query, hsp]
  · decide

/-- One unfolding of the generate-validate loop when the verdict fails and
carries no feedback: the loop stops immediately after that single attempt,
returning that attempt response with one more generation counted. -/
theorem gvGo_stop_no_feedback (gen : Nat → List ToolResult → String)
    (val : Nat → String → ResponseValidation) (fuel attempt : Nat) (resp : String)
    (trs : List ToolResult) (hist : List Message) (g : Nat)
    (hfail : validationPasses (val attempt (gen attempt trs)) = false)
    (hnofb : (val attempt (gen attempt trs)).feedback = none) :
    gvGo gen val (fuel + 1) attempt resp trs hist g =
      ⟨gen attempt trs, trs,
        hist ++ [⟨"user", "Context: " ++ serializeContext trs⟩], g + 1⟩ := by
  simp [gvGo, hfail, hnofb]

/-- C1 counterexample: a planner response stream whose single batch carries
ten tool calls makes retrieve_information accumulate ten results, exceeding
the nine the claim promises for every sequence of planner responses. -/
theorem c1_counterexample :
    (retrieve_information (fun _ _ => BackendOutcome.success "ok")
      (fun _ => BackendOutcome.success "ok")
      [some ⟨List.replicate 10 ⟨"searchRAG", "repairs", "water"⟩, false⟩]).length = 10 ∧
    ¬ (retrieve_information (fun _ _ => BackendOutcome.success "ok")
      (fun _ => BackendOutcome.success "ok")
      [some ⟨List.replicate 10 ⟨"searchRAG", "repairs", "water"⟩, false⟩]).length ≤ 9 :=
  ⟨by decide, by decide⟩

/-- C1 amended: the retrieval loop executes at most three batches for every
planner behaviour; provided every planner batch carries at most three tool
calls (the Batch Tool Call contract), at most nine tool results accumulate;
and the loop terminates as soon as the planner returns no tool calls, or an
empty batch, or a non-continuing batch. -/
theorem c1_amended_thm (rag : String → String → BackendOutcome)
    (mysql : String → BackendOutcome) (planners : List (Option BatchToolCall)) :
    (retrieveGo rag mysql planners [] 0).2 ≤ 3 ∧
    ((∀ ob ∈ planners, batchSize ob ≤ 3) →
      (retrieve_information rag mysql planners).length ≤ 9) ∧
    (∀ ps, retrieveGo rag mysql (none :: ps) [] 0 = ([], 0)) ∧
    (∀ b ps, b.tool_calls.isEmpty = true →
      retrieveGo rag mysql (some b :: ps) [] 0 = ([], 0)) ∧
    (∀ b ps, b.tool_calls.isEmpty = false → b.should_continue = false →
      retrieveGo rag mysql (some b :: ps) [] 0 = (execute_batch_tools rag mysql b, 1)) := by
  refine ⟨retrieveGo_snd_le rag mysql planners [] 0 (by omega), fun hb => ?_,
    fun ps => ?_, fun b ps h => ?_, fun b ps h1 h2 => ?_⟩
  · have := retrieveGo_fst_len rag mysql planners [] 0 hb (by omega)
    simpa [retrieve_information] using this
  · simp [retrieveGo]
  · simp [retrieveGo, h]
  · simp [retrieveGo, h1, h2]

/-- Witness for c1_amended_thm on concrete planner streams. -/
theorem c1_amended_witness :
    (retrieveGo cRag cMysql [some ⟨[⟨"searchRAG", "repairs", "water"⟩], false⟩] [] 0).2 ≤ 3 ∧
    (retrieve_information cRag cMysql
      [some ⟨[⟨"searchRAG", "repairs", "water"⟩], false⟩]).length ≤ 9 ∧
    retrieveGo cRag cMysql [none] [] 0 = ([], 0) ∧
    retrieveGo cRag cMysql [some ⟨[], true⟩] [] 0 = ([], 0) ∧
    retrieveGo cRag cMysql [some ⟨[⟨"searchRAG", "repairs", "water"⟩], false⟩] [] 0
      = (execute_batch_tools cRag cMysql ⟨[⟨"searchRAG", "repairs", "water"⟩], false⟩, 1) :=
  ⟨(c1_amended_thm cRag cMysql [some ⟨[⟨"searchRAG", "repairs", "water"⟩], false⟩]).1,
   (c1_amended_thm cRag cMysql [some ⟨[⟨"searchRAG", "repairs", "water"⟩], false⟩]).2.1
     (by decide),
   (c1_amended_thm cRag cMysql []).2.2.1 [],
   (c1_amended_thm cRag cMysql []).2.2.2.1 ⟨[], true⟩ [] rfl,
   (c1_amended_thm cRag cMysql []).2.2.2.2 ⟨[⟨"searchRAG", "repairs", "water"⟩], false⟩ []
     (by decide) rfl⟩

/-- C2: the generate-validate loop makes at most three generation attempts;
a failing first verdict without feedback ends the loop immediately after one
attempt, surfacing that attempt response; and process_query always appends
exactly one final assistant message whose content is the returned answer,
which on an in-scope turn is the loop last generated response. -/
theorem c2_thm (gen : Nat → List ToolResult → String)
    (val : Nat → String → ResponseValidation) (trs : List ToolResult)
    (hist : List Message) (analysis : QueryAnalysis)
    (rag : String → String → BackendOutcome) (mysql : String → BackendOutcome)
    (planners : List (Option BatchToolCall)) (q : String) :
    (gvGo gen val 3 0 "" trs hist 0).genCount ≤ 3 ∧
    (validationPasses (val 0 (gen 0 trs)) = false →
      (val 0 (gen 0 trs)).feedback = none →
      gvGo gen val 3 0 "" trs hist 0 =
        ⟨gen 0 trs, trs, hist ++ [⟨"user", "Context: " ++ serializeContext trs⟩], 1⟩) ∧
    (∃ h2, (process_query analysis rag mysql planners gen val hist q).2
        = h2 ++ [⟨"assistant",
            (process_query analysis rag mysql planners gen val hist q).1⟩]) ∧
    (analysis.is_in_scope = true →
      (process_query analysis rag mysql planners gen val hist q).1 =
        (gvGo gen val 3 0 ""
          (if analysis.needs_retrieval then retrieve_information rag mysql planners else [])
          (hist ++ [⟨"user", q⟩]) 0).response) := by
  refine ⟨?_, ?_, ?_, ?_⟩
  · simpa using gvGo_genCount_le gen val 3 0 "" trs hist 0
  · intro hfail hnofb
    exact gvGo_stop_no_feedback gen val 2 0 "" trs hist 0 hfail hnofb
  · cases hsc : analysis.is_in_scope
    · exact ⟨hist ++ [⟨"user", q⟩], by simp [process_query, hsc]⟩
    · exact ⟨(gvGo gen val 3 0 ""
        (if analysis.needs_retrieval then retrieve_information rag mysql planners else [])
        (hist ++ [⟨"user", q⟩]) 0).history, by simp [process_query, hsc]⟩
  · intro hsc
    simp [process_query, hsc]

/-- Witness for c2_thm with a validator failing without feedback. -/
theorem c2_witness :
    (gvGo cGen cValNoFb 3 0 "" [] initHistory 0).genCount ≤ 3 ∧
    gvGo cGen cValNoFb 3 0 "" [] initHistory 0
      = ⟨"answer", [], initHistory ++ [⟨"user", "Context: " ++ serializeContext []⟩], 1⟩ ∧
    (∃ h2, (process_query ⟨true, false⟩ cRag cMysql [] cGen cValNoFb initHistory "hi").2
        = h2 ++ [⟨"assistant",
            (process_query ⟨true, false⟩ cRag cMysql [] cGen cValNoFb initHistory "hi").1⟩]) ∧
    (process_query ⟨true, false⟩ cRag cMysql [] cGen cValNoFb initHistory "hi").1
      = (gvGo cGen cValNoFb 3 0 "" [] (initHistory ++ [⟨"user", "hi"⟩]) 0).response :=
  ⟨(c2_thm cGen cValNoFb [] initHistory ⟨true, false⟩ cRag cMysql [] "hi").1,
   (c2_thm cGen cValNoFb [] initHistory ⟨true, false⟩ cRag cMysql [] "hi").2.1 rfl rfl,
   (c2_thm cGen cValNoFb [] initHistory ⟨true, false⟩ cRag cMysql [] "hi").2.2.1,
   (c2_thm cGen cValNoFb [] initHistory ⟨true, false⟩ cRag cMysql [] "hi").2.2.2 rfl⟩

/-- C4: a batch of N tool calls yields exactly N results in input order, and
execute_tool is a total function whose timeout, fault and unknown-tool
outcomes all resolve to a ToolResult whose text describes the failure. -/
theorem c4_thm (rag : String → String → BackendOutcome) (mysql : String → BackendOutcome)
    (b : BatchToolCall) (tc : ToolCall) :
    (execute_batch_tools rag mysql b).length = b.tool_calls.length ∧
    (∀ i : Nat, (execute_batch_tools rag mysql b)[i]?
        = b.tool_calls[i]?.map (execute_tool rag mysql)) ∧
    (tc.tool_name ≠ "searchRAG" → tc.tool_name ≠ "execute_read_query" →
      (execute_tool rag mysql tc).result = "Unknown tool: " ++ tc.tool_name) ∧
    (tc.tool_name = "searchRAG" → rag tc.table_name tc.query = .timeout →
      (execute_tool rag mysql tc).result
        = "Timeout searching " ++ tc.table_name ++ ". The search took too long to complete.") ∧
    (∀ m, tc.tool_name = "searchRAG" → rag tc.table_name tc.query = .fault m →
      (execute_tool rag mysql tc).result
        = "Error executing tool " ++ tc.tool_name ++ ": " ++ m) ∧
    (tc.tool_name = "execute_read_query" → mysql (clientRewriteLimit tc.query) = .timeout →
      (execute_tool rag mysql tc).result
        = "Timeout executing query. The database operation took too long to complete.") ∧
    (∀ m, tc.tool_name = "execute_read_query" →
      mysql (clientRewriteLimit tc.query) = .fault m →
      (execute_tool rag mysql tc).result
        = "Error executing tool " ++ tc.tool_name ++ ": " ++ m) := by
  refine ⟨by simp [execute_batch_tools], fun i => ?_, fun h1 h2 => ?_, fun h ht => ?_,
    fun m h hf => ?_, fun h ht => ?_, fun m h hf => ?_⟩
  · simp [execute_batch_tools, List.getElem?_map]
  · have hb1 : (tc.tool_name == "searchRAG") = false := by simp [h1]
    have hb2 : (tc.tool_name == "execute_read_query") = false := by simp [h2]
    simp [execute_tool, hb1, hb2]
  · simp [execute_tool, h, ht]
  · simp [execute_tool, h, hf]
  · have hb1 : (tc.tool_name == "searchRAG") = false := by simp [h]
    simp [execute_tool, hb1, h, ht]
  · have hb1 : (tc.tool_name == "searchRAG") = false := by simp [h]
    simp [execute_tool, hb1, h, hf]

/-- Witness for c4_thm on concrete batches, oracles, timeouts and faults. -/
theorem c4_witness :
    (execute_batch_tools cRag cMysql ⟨[⟨"searchRAG", "repairs", "water"⟩], false⟩).length = 1 ∧
    (execute_tool cRag cMysql ⟨"foo", "t", "q"⟩).result = "Unknown tool: " ++ "foo" ∧
    (execute_tool (fun _ _ => .timeout) cMysql ⟨"searchRAG", "repairs", "water"⟩).result
      = "Timeout searching " ++ "repairs" ++ ". The search took too long to complete." ∧
    (execute_tool (fun _ _ => .fault "boom") cMysql ⟨"searchRAG", "repairs", "water"⟩).result
      = "Error executing tool " ++ "searchRAG" ++ ": " ++ "boom" ∧
    (execute_tool cRag (fun _ => .timeout) ⟨"execute_read_query", "", "SELECT 1"⟩).result
      = "Timeout executing query. The database operation took too long to complete." ∧
    (execute_tool cRag (fun _ => .fault "down") ⟨"execute_read_query", "", "SELECT 1"⟩).result
      = "Error executing tool " ++ "execute_read_query" ++ ": " ++ "down" :=
  ⟨(c4_thm cRag cMysql ⟨[⟨"searchRAG", "repairs", "water"⟩], false⟩ ⟨"", "", ""⟩).1,
   (c4_thm cRag cMysql ⟨[], false⟩ ⟨"foo", "t", "q"⟩).2.2.1 (by decide) (by decide),
   (c4_thm (fun _ _ => .timeout) cMysql ⟨[], false⟩
     ⟨"searchRAG", "repairs", "water"⟩).2.2.2.1 rfl rfl,
   (c4_thm (fun _ _ => .fault "boom") cMysql ⟨[], false⟩
     ⟨"searchRAG", "repairs", "water"⟩).2.2.2.2.1 "boom" rfl rfl,
   (c4_thm cRag (fun _ => .timeout) ⟨[], false⟩
     ⟨"execute_read_query", "", "SELECT 1"⟩).2.2.2.2.2.1 rfl rfl,
   (c4_thm cRag (fun _ => .fault "down") ⟨[], false⟩
     ⟨"execute_read_query", "", "SELECT 1"⟩).2.2.2.2.2.2 "down" rfl rfl⟩

/-- C6: on an out-of-scope analysis, process_query returns exactly the fixed
apology text and the history gains only the user query and the apology; the
result is independent of the retrieval and generation oracles, so no
retrieval, no generation and no Context message occurs. -/
theorem c6_thm (analysis : QueryAnalysis) (rag : String → String → BackendOutcome)
    (mysql : String → BackendOutcome) (planners : List (Option BatchToolCall))
    (gen : Nat → List ToolResult → String) (val : Nat → String → ResponseValidation)
    (hist : List Message) (q : String) (h : analysis.is_in_scope = false) :
    process_query analysis rag mysql planners gen val hist q
      = (apologyText, hist ++ [⟨"user", q⟩, ⟨"assistant", apologyText⟩]) := by
  simp [process_query, h]

/-- Witness for c6_thm at a concrete out-of-scope analysis. -/
theorem c6_witness :
    (QueryAnalysis.mk false false).is_in_scope = false ∧
    process_query ⟨false, false⟩ cRag cMysql [] cGen cValPass initHistory "hello"
      = (apologyText, initHistory ++ [⟨"user", "hello"⟩, ⟨"assistant", apologyText⟩]) :=
  ⟨rfl, c6_thm ⟨false, false⟩ cRag cMysql [] cGen cValPass initHistory "hello" rfl⟩

/-- Witness for c10_thm at the concrete query SHOW TABLES. -/
theorem c10_witness :
    ("SHOW TABLES".toList.any fun c => !isPySpace c) = true ∧
    ((∃ t ts, pySplitWhitespace (pyStrip "SHOW TABLES") = t :: ts ∧
      (is_read_only_query "SHOW TABLES" = some true ↔
        ALLOWED_QUERY_TYPES.contains (pyUpper t) = true)) ∧
      is_read_only_query "SELECT 1; DROP TABLE parts" = some true) :=
  ⟨by decide, c10_thm "SHOW TABLES" (by decide)⟩

/-- C7 counterexample: on a one-message history whose single entry is a user
message equal to the query, the scan condition matches at index zero, yet the
truncation leaves the history untouched because it only runs on histories of
at least two messages; the claim as stated would discard that message and
leave the history empty. -/
theorem c7_counterexample :
    matchIdx [⟨"user", "q1"⟩] "q1" 0 = true ∧
    truncateHistory [⟨"user", "q1"⟩] "q1" = [⟨"user", "q1"⟩] ∧
    truncateHistory [⟨"user", "q1"⟩] "q1" ≠ ([] : List Message) :=
  ⟨by decide, by decide, by decide⟩

/-- C7 amended: on every history of at least two messages the truncation
keeps the strict prefix before the most recent user message equal to the
query (and not a Context message), and keeps only the first message when no
such message exists; histories of fewer than two messages are left
unchanged. -/
theorem c7_amended_thm (hist : List Message) (q : String) :
    (2 ≤ hist.length →
      (∃ j, j < hist.length ∧ matchIdx hist q j = true ∧
        (∀ k, j < k → k < hist.length → matchIdx hist q k = false) ∧
        truncateHistory hist q = hist.take j) ∨
      ((∀ k, k < hist.length → matchIdx hist q k = false) ∧
        truncateHistory hist q = hist.take 1)) ∧
    (hist.length < 2 → truncateHistory hist q = hist) := by
  constructor
  · intro h2
    have htr : truncateHistory hist q = truncScan hist q (hist.length - 1) := by
      simp [truncateHistory, h2]
    rcases truncScan_spec hist q (hist.length - 1) with ⟨j, hj, hm, hnone, heq⟩ | ⟨hnone, heq⟩
    · left
      exact ⟨j, by omega, hm, fun k hk1 hk2 => hnone k hk1 (by omega), by rw [htr, heq]⟩
    · right
      exact ⟨fun k hk => hnone k (by omega), by rw [htr, heq]⟩
  · intro h
    simp only [truncateHistory, if_neg (by omega : ¬ 2 ≤ hist.length)]

/-- Witness for c7_amended_thm on a two-message history with a match. -/
theorem c7_amended_witness :
    (∃ j, j < ([introMessage, ⟨"user", "hello"⟩] : List Message).length ∧
      matchIdx [introMessage, ⟨"user", "hello"⟩] "hello" j = true ∧
      (∀ k, j < k → k < ([introMessage, ⟨"user", "hello"⟩] : List Message).length →
        matchIdx [introMessage, ⟨"user", "hello"⟩] "hello" k = false) ∧
      truncateHistory [introMessage, ⟨"user", "hello"⟩] "hello"
        = ([introMessage, ⟨"user", "hello"⟩] : List Message).take j) ∨
    ((∀ k, k < ([introMessage, ⟨"user", "hello"⟩] : List Message).length →
      matchIdx [introMessage, ⟨"user", "hello"⟩] "hello" k = false) ∧
      truncateHistory [introMessage, ⟨"user", "hello"⟩] "hello"
        = ([introMessage, ⟨"user", "hello"⟩] : List Message).take 1) :=
  (c7_amended_thm [introMessage, ⟨"user", "hello"⟩] "hello").1 (by decide)

/-- C8: the history invariant (non-empty, headed by the introduction message)
holds of the initial history and is preserved by reset_chat, by the
regenerate truncation, by the Context appends of the generate-validate loop,
and by a whole process_query turn. -/
theorem c8_thm (hist : List Message) (q : String) (analysis : QueryAnalysis)
    (rag : String → String → BackendOutcome) (mysql : String → BackendOutcome)
    (planners : List (Option BatchToolCall)) (gen : Nat → List ToolResult → String)
    (val : Nat → String → ResponseValidation) (trs : List ToolResult)
    (fuel attempt g : Nat) (resp : String) (hinv : histInv hist) :
    histInv initHistory ∧
    histInv (reset_chat hist).2 ∧
    histInv (truncateHistory hist q) ∧
    histInv (gvGo gen val fuel attempt resp trs hist g).history ∧
    histInv (process_query analysis rag mysql planners gen val hist q).2 := by
  have hcons : ∃ t, hist = introMessage :: t := by
    rcases hist with _ | ⟨m, t⟩
    · exact absurd rfl hinv.1
    · have hm : m = introMessage := by simpa using hinv.2
      exact ⟨t, by rw [hm]⟩
  obtain ⟨t, ht⟩ := hcons
  refine ⟨⟨by simp [initHistory], rfl⟩, ⟨by simp [reset_chat], rfl⟩, ?_, ?_, ?_⟩
  · by_cases hlen : 2 ≤ hist.length
    · have htr : truncateHistory hist q = truncScan hist q (hist.length - 1) := by
        simp [truncateHistory, hlen]
      have hro : (introMessage.role == "user") = false := by decide
      have hm0 : matchIdx hist q 0 = false := by
        rw [ht]
        simp [matchIdx, histMatch, hro]
      rcases truncScan_spec hist q (hist.length - 1) with ⟨j, hj, hm, _, heq⟩ | ⟨_, heq⟩
      · rcases j with _ | j'
        · rw [hm0] at hm
          exact absurd hm (by simp)
        · rw [htr, heq, ht]
          exact ⟨by simp, by simp⟩
      · rw [htr, heq, ht]
        exact ⟨by simp, by simp⟩
    · have htr : truncateHistory hist q = hist := by
        simp only [truncateHistory, if_neg hlen]
      rw [htr]
      exact hinv
  · obtain ⟨s, hs⟩ := gvGo_history_append gen val fuel attempt resp trs hist g
    rw [hs, ht]
    exact ⟨by simp, by simp⟩
  · cases hsc : analysis.is_in_scope
    · simp only [process_query, hsc]
      rw [ht]
      exact ⟨by simp, by simp⟩
    · simp only [process_query, hsc]
      obtain ⟨s, hs⟩ := gvGo_history_append gen val 3 0 ""
        (if analysis.needs_retrieval then retrieve_information rag mysql planners else [])
        (hist ++ [⟨"user", q⟩]) 0
      rw [hs, ht]
      exact ⟨by simp, by simp⟩

/-- Witness for c8_thm at the initial history and concrete oracles. -/
theorem c8_witness :
    histInv initHistory ∧
    (histInv initHistory ∧
      histInv (reset_chat initHistory).2 ∧
      histInv (truncateHistory initHistory "x") ∧
      histInv (gvGo cGen cValPass 3 0 "" [] initHistory 0).history ∧
      histInv (process_query ⟨true, false⟩ cRag cMysql [] cGen cValPass initHistory "x").2) :=
  ⟨⟨by simp [initHistory], rfl⟩,
   c8_thm initHistory "x" ⟨true, false⟩ cRag cMysql [] cGen cValPass [] 3 0 0 ""
     ⟨by simp [initHistory], rfl⟩⟩

end PartSelect
